import Mathlib

/-
Verification of the metrics, recommendation, persistence and account logic
of app.py (Virtual Health & Diet Planner) against its specification.

Modelling conventions:
* Python floats are modelled by exact rationals (ℚ); `round()` (which uses
  banker's rounding, ties to even) is modelled by `pyRound`, and
  `round(x, 1)` by `round1`.
* `str.lower()` / `str.capitalize()` are modelled on the ASCII range by
  `strLower` / `pyCapitalize` (all strings that occur in the program are
  ASCII).
* pandas DataFrames of catalog rows are modelled as Lists of structures;
  row filtering preserves catalog order exactly as pandas boolean-mask
  selection does.
* sqlite tables are modelled as Lists of records; the UNIQUE constraint on
  `users.username` and the PRIMARY KEY on `profiles.user_id` are reflected
  in the explicit membership checks / replacement the operations perform.
* `hashlib.sha256(...).hexdigest()` is modelled by a full SHA-256
  implementation over the UTF-8 bytes of the password, producing the
  64-character lowercase hex digest.
-/

/-- Banker's rounding on ℚ, the semantics of Python's builtin round():
nearest integer, ties to the even integer. -/
def pyRound (q : ℚ) : ℤ :=
  let f : ℤ := ⌊q⌋
  let r : ℚ := q - (f : ℚ)
  if r < 1/2 then f
  else if 1/2 < r then f + 1
  else if f % 2 = 0 then f else f + 1

/-- Python round(x, 1): round to one decimal place. -/
def round1 (q : ℚ) : ℚ := (pyRound (q * 10) : ℚ) / 10

/-- ASCII lower-casing of a single character (models str.lower per char). -/
def lowerChar (c : Char) : Char :=
  if 'A' ≤ c ∧ c ≤ 'Z' then Char.ofNat (c.toNat + 32) else c

/-- ASCII upper-casing of a single character. -/
def upperChar (c : Char) : Char :=
  if 'a' ≤ c ∧ c ≤ 'z' then Char.ofNat (c.toNat - 32) else c

/-- Python str.lower(), on the ASCII range. -/
def strLower (s : String) : String := String.mk (s.data.map lowerChar)

/-- Python str.capitalize(): first character upper-cased, the rest
lower-cased (ASCII range). -/
def pyCapitalize (s : String) : String :=
  match s.data with
  | [] => ""
  | c :: rest => String.mk (upperChar c :: rest.map lowerChar)

/-- calc_bmi from app.py: `h_m = height_cm / 100.0`; returns None when
`h_m <= 0`, otherwise `round(weight_kg / (h_m * h_m), 1)`. -/
def calc_bmi (weight_kg height_cm : ℚ) : Option ℚ :=
  let h_m := height_cm / 100
  if h_m ≤ 0 then none
  else some (round1 (weight_kg / (h_m * h_m)))

/-- bmi_category from app.py. The `None` BMI sentinel maps to "Unknown". -/
def bmi_category (bmi : Option ℚ) : String :=
  match bmi with
  | none => "Unknown"
  | some b =>
    if b < 18.5 then "Underweight"
    else if b < 25 then "Normal"
    else if b < 30 then "Overweight"
    else "Obese"

/-- calc_bmr from app.py (Mifflin-St Jeor): male branch when
`sex.lower() in ['male','m','man']`, otherwise the −161 branch;
`int(round(bmr))`. -/
def calc_bmr (sex : String) (weight_kg height_cm age : ℚ) : ℤ :=
  if ["male", "m", "man"].contains (strLower sex) then
    pyRound (10 * weight_kg + 6.25 * height_cm - 5 * age + 5)
  else
    pyRound (10 * weight_kg + 6.25 * height_cm - 5 * age - 161)

/-- The ACTIVITY_MULTIPLIER dict from app.py, as an association list. -/
def ACTIVITY_MULTIPLIER : List (String × ℚ) :=
  [("Sedentary (little/no exercise)", 1.2),
   ("Lightly active (1-3 days/week)", 1.375),
   ("Moderately active (3-5 days/week)", 1.55),
   ("Very active (6-7 days/week)", 1.725),
   ("Extra active (very intense)", 1.9)]

/-- The GOAL_ADJUSTMENT dict from app.py, as an association list. -/
def GOAL_ADJUSTMENT : List (String × ℚ) :=
  [("Lose weight", -500), ("Gain weight", 300),
   ("Maintain", 0), ("Build muscle", 250)]

/-- `ACTIVITY_MULTIPLIER.get(activity_level, 1.2)`. -/
def activityMult (activity_level : String) : ℚ :=
  ((ACTIVITY_MULTIPLIER.find? (fun kv => kv.1 == activity_level)).map
    Prod.snd).getD 1.2

/-- `GOAL_ADJUSTMENT.get(goal, 0)`. -/
def goalAdjust (goal : String) : ℚ :=
  ((GOAL_ADJUSTMENT.find? (fun kv => kv.1 == goal)).map Prod.snd).getD 0

/-- target_calories from app.py:
`int(round(bmr * multiplier + adjust))`. -/
def target_calories (bmr : ℤ) (activity_level goal : String) : ℤ :=
  pyRound ((bmr : ℚ) * activityMult activity_level + goalAdjust goal)

/-- Claim C1 counterexample: the spec's concrete value is wrong.
`computeBMR("male", 70, 175, 30)` is 1649 (10·70 + 6.25·175 − 5·30 + 5 =
1648.75, rounded), not 1673. -/
theorem calc_bmr_spec_value_counterexample :
    calc_bmr "male" 70 175 30 ≠ 1673 := by
  have hm : (["male", "m", "man"].contains (strLower "male")) = true := by
    decide
  simp only [calc_bmr, hm, if_true]
  norm_num [pyRound]

/-- Claim C1 (amended): computeBMR follows Mifflin-St Jeor with the male
branch 10·w + 6.25·h − 5·a + 5 for any sex token whose lower-casing is one
of "male"/"m"/"man", the −161 branch for every other token (in particular
"female", "other", ""), results rounded to the nearest integer; and
computeBMR("male", 70, 175, 30) = 1649. -/
theorem calc_bmr_branches_amended :
    (∀ sex : String, ∀ w h a : ℚ,
      ["male", "m", "man"].contains (strLower sex) = true →
      calc_bmr sex w h a = pyRound (10 * w + 6.25 * h - 5 * a + 5)) ∧
    (∀ sex : String, ∀ w h a : ℚ,
      ["male", "m", "man"].contains (strLower sex) = false →
      calc_bmr sex w h a = pyRound (10 * w + 6.25 * h - 5 * a - 161)) ∧
    calc_bmr "male" 70 175 30 = 1649 ∧
    calc_bmr "female" 70 175 30 = 1483 ∧
    calc_bmr "other" 70 175 30 = 1483 ∧
    calc_bmr "" 70 175 30 = 1483 := by
  have hmale : ∀ sex : String, ∀ w h a : ℚ,
      ["male", "m", "man"].contains (strLower sex) = true →
      calc_bmr sex w h a = pyRound (10 * w + 6.25 * h - 5 * a + 5) := by
    intro sex w h a hm
    simp only [calc_bmr]
    rw [hm]
    rfl
  have hother : ∀ sex : String, ∀ w h a : ℚ,
      ["male", "m", "man"].contains (strLower sex) = false →
      calc_bmr sex w h a = pyRound (10 * w + 6.25 * h - 5 * a - 161) := by
    intro sex w h a hm
    simp only [calc_bmr]
    rw [hm]
    rfl
  refine ⟨hmale, hother, ?_, ?_, ?_, ?_⟩
  · rw [hmale "male" 70 175 30 (by decide)]
    norm_num [pyRound]
  · rw [hother "female" 70 175 30 (by decide)]
    norm_num [pyRound]
  · rw [hother "other" 70 175 30 (by decide)]
    norm_num [pyRound]
  · rw [hother "" 70 175 30 (by decide)]
    norm_num [pyRound]

/-- Witness for the hypotheses of `calc_bmr_branches_amended`: the male
branch fires for the token "MAN", the other branch for "Female". -/
theorem calc_bmr_branches_amended_witness :
    calc_bmr "MAN" 80 180 40 = pyRound (10 * 80 + 6.25 * 180 - 5 * 40 + 5) ∧
    calc_bmr "Female" 80 180 40 =
      pyRound (10 * 80 + 6.25 * 180 - 5 * 40 - 161) :=
  ⟨calc_bmr_branches_amended.1 "MAN" 80 180 40 (by decide),
   calc_bmr_branches_amended.2.1 "Female" 80 180 40 (by decide)⟩

/-- Claim C2: computeBMI returns the Undefined sentinel (None) for every
height ≤ 0, and for positive height returns w / (h/100)^2 rounded to one
decimal place. -/
theorem calc_bmi_undefined_or_rounded (w h : ℚ) :
    (h ≤ 0 → calc_bmi w h = none) ∧
    (0 < h → calc_bmi w h = some (round1 (w / (h / 100) ^ 2))) := by
  constructor
  · intro hle
    have hq : h / 100 ≤ 0 := by
      rw [div_le_iff₀ (by norm_num : (0:ℚ) < 100)]
      simpa using hle
    simp [calc_bmi, hq]
  · intro hpos
    have h1 : 0 < h / 100 := div_pos hpos (by norm_num)
    have h2 : ¬ (h / 100 ≤ 0) := not_le.mpr h1
    simp [calc_bmi, h2, pow_two]

/-- Witness for `calc_bmi_undefined_or_rounded`: at height 0 the sentinel is
returned, and at weight 70 / height 175 the rounded BMI formula value. -/
theorem calc_bmi_undefined_or_rounded_witness :
    calc_bmi 70 0 = none ∧
    calc_bmi 70 175 = some (round1 (70 / ((175 : ℚ) / 100) ^ 2)) :=
  ⟨(calc_bmi_undefined_or_rounded 70 0).1 (by norm_num),
   (calc_bmi_undefined_or_rounded 70 175).2 (by norm_num)⟩

/-- Claim C3: target_calories is round(bmr × multiplier + adjustment); the
five enumerated activity levels (labelled in the code with their full
descriptive strings) map to 1.2 / 1.375 / 1.55 / 1.725 / 1.9, any
unrecognized level defaults to 1.2, and any unrecognized goal defaults to
adjustment 0 (the four known goals mapping to −500/+300/+250/0). -/
theorem target_calories_tables :
    (∀ (bmr : ℤ) (lvl goal : String),
      target_calories bmr lvl goal =
        pyRound ((bmr : ℚ) * activityMult lvl + goalAdjust goal)) ∧
    activityMult "Sedentary (little/no exercise)" = 1.2 ∧
    activityMult "Lightly active (1-3 days/week)" = 1.375 ∧
    activityMult "Moderately active (3-5 days/week)" = 1.55 ∧
    activityMult "Very active (6-7 days/week)" = 1.725 ∧
    activityMult "Extra active (very intense)" = 1.9 ∧
    (∀ lvl : String,
      lvl ∉ ["Sedentary (little/no exercise)",
             "Lightly active (1-3 days/week)",
             "Moderately active (3-5 days/week)",
             "Very active (6-7 days/week)",
             "Extra active (very intense)"] →
      activityMult lvl = 1.2) ∧
    goalAdjust "Lose weight" = -500 ∧
    goalAdjust "Gain weight" = 300 ∧
    goalAdjust "Build muscle" = 250 ∧
    goalAdjust "Maintain" = 0 ∧
    (∀ g : String,
      g ∉ ["Lose weight", "Gain weight", "Maintain", "Build muscle"] →
      goalAdjust g = 0) := by
  refine ⟨fun bmr lvl goal => rfl, rfl, rfl, rfl, rfl, rfl, ?_,
    rfl, rfl, rfl, rfl, ?_⟩
  · intro lvl hm
    simp only [List.mem_cons, List.not_mem_nil, or_false, not_or] at hm
    obtain ⟨h1, h2, h3, h4, h5⟩ := hm
    simp [activityMult, ACTIVITY_MULTIPLIER, List.find?,
      beq_eq_false_iff_ne.mpr (Ne.symm h1),
      beq_eq_false_iff_ne.mpr (Ne.symm h2),
      beq_eq_false_iff_ne.mpr (Ne.symm h3),
      beq_eq_false_iff_ne.mpr (Ne.symm h4),
      beq_eq_false_iff_ne.mpr (Ne.symm h5)]
  · intro g hm
    simp only [List.mem_cons, List.not_mem_nil, or_false, not_or] at hm
    obtain ⟨h1, h2, h3, h4⟩ := hm
    simp [goalAdjust, GOAL_ADJUSTMENT, List.find?,
      beq_eq_false_iff_ne.mpr (Ne.symm h1),
      beq_eq_false_iff_ne.mpr (Ne.symm h2),
      beq_eq_false_iff_ne.mpr (Ne.symm h3),
      beq_eq_false_iff_ne.mpr (Ne.symm h4)]

/-- Witness for `target_calories_tables`: the unrecognized level "Walking"
takes multiplier 1.2 and the unrecognized goal "Sleep" takes adjustment 0. -/
theorem target_calories_tables_witness :
    activityMult "Walking" = 1.2 ∧ goalAdjust "Sleep" = 0 :=
  ⟨target_calories_tables.2.2.2.2.2.2.1 "Walking" (by decide),
   target_calories_tables.2.2.2.2.2.2.2.2.2.2.2 "Sleep" (by decide)⟩

/-- Claim C4: bmiCategory maps the Undefined sentinel to "Unknown" and
classifies with lower-bound-inclusive bands <18.5 / <25 / <30 / ≥30,
with the stated boundary examples. -/
theorem bmi_category_bands :
    bmi_category none = "Unknown" ∧
    (∀ q : ℚ, q < 18.5 → bmi_category (some q) = "Underweight") ∧
    (∀ q : ℚ, 18.5 ≤ q → q < 25 → bmi_category (some q) = "Normal") ∧
    (∀ q : ℚ, 25 ≤ q → q < 30 → bmi_category (some q) = "Overweight") ∧
    (∀ q : ℚ, 30 ≤ q → bmi_category (some q) = "Obese") ∧
    bmi_category (some 18.4) = "Underweight" ∧
    bmi_category (some 18.5) = "Normal" ∧
    bmi_category (some 24.9) = "Normal" ∧
    bmi_category (some 25.0) = "Overweight" ∧
    bmi_category (some 29.9) = "Overweight" ∧
    bmi_category (some 30.0) = "Obese" := by
  refine ⟨rfl, ?_, ?_, ?_, ?_, by norm_num [bmi_category],
    by norm_num [bmi_category], by norm_num [bmi_category],
    by norm_num [bmi_category], by norm_num [bmi_category],
    by norm_num [bmi_category]⟩
  · intro q h1
    simp [bmi_category, h1]
  · intro q h1 h2
    simp [bmi_category, not_lt.mpr h1, h2]
  · intro q h1 h2
    have : ¬ (q < 18.5) := not_lt.mpr (le_trans (by norm_num) h1)
    simp [bmi_category, this, not_lt.mpr h1, h2]
  · intro q h1
    have hu : ¬ (q < 18.5) := not_lt.mpr (le_trans (by norm_num) h1)
    have hn : ¬ (q < 25) := not_lt.mpr (le_trans (by norm_num) h1)
    simp [bmi_category, hu, hn, not_lt.mpr h1]

/-- Witness for `bmi_category_bands`: the band theorems applied at
concrete BMI values 17, 20, 27 and 35. -/
theorem bmi_category_bands_witness :
    bmi_category (some 17) = "Underweight" ∧
    bmi_category (some 20) = "Normal" ∧
    bmi_category (some 27) = "Overweight" ∧
    bmi_category (some 35) = "Obese" :=
  ⟨bmi_category_bands.2.1 17 (by norm_num),
   bmi_category_bands.2.2.1 20 (by norm_num) (by norm_num),
   bmi_category_bands.2.2.2.1 27 (by norm_num) (by norm_num),
   bmi_category_bands.2.2.2.2.1 35 (by norm_num)⟩

/-- A row of the food catalog (foods.csv):
food_name, diet_type, cal_per_serving, meal_type. -/
structure Food where
  food_name : String
  diet_type : String
  cal_per_serving : ℤ
  meal_type : String
deriving DecidableEq, Inhabited

/-- A row of the exercise catalog (exercises.csv):
exercise_name, goals, duration_min, equipment, difficulty. -/
structure Exercise where
  exercise_name : String
  goals : String
  duration_min : ℤ
  equipment : String
  difficulty : String
deriving DecidableEq, Inhabited

/-- `foods_df[foods_df["meal_type"].str.lower() == meal_type]`: the rows of
the catalog whose meal-type tag matches the slot case-insensitively, in
catalog order. -/
def slotSubset (foods : List Food) (slot : String) : List Food :=
  foods.filter (fun f => strLower f.meal_type == slot)

/-- `subset[subset['diet_type'].str.lower() == diet_pref.lower()]`: the
slot rows whose diet tag matches the user's diet preference
case-insensitively. -/
def prefMatched (foods : List Food) (diet_pref slot : String) : List Food :=
  (slotSubset foods slot).filter
    (fun f => strLower f.diet_type == strLower diet_pref)

/-- `choice_df = pref_matched if not pref_matched.empty else subset`. -/
def choiceDf (foods : List Food) (diet_pref slot : String) : List Food :=
  if (prefMatched foods diet_pref slot).isEmpty then slotSubset foods slot
  else prefMatched foods diet_pref slot

/-- One iteration of the meal-suggestion loop of the Dashboard tab: the
pair appended to `meals` for one meal slot.  `pick` models the
`choice_df.sample(...)` random row choice as an arbitrary injected index
(taken modulo the subset size). -/
def dietSuggestion (foods : List Food) (diet_pref slot : String)
    (pick : Nat) : String × String :=
  let choice := choiceDf foods diet_pref slot
  if choice.isEmpty then (pyCapitalize slot, "No data")
  else
    let r := choice.getD (pick % choice.length) default
    (pyCapitalize slot,
      r.food_name ++ " - " ++ toString r.cal_per_serving ++ " kcal")

/-- `desired.lower().split()[0]`: the first whitespace-delimited token of
the goal string, case-folded (None when the goal has no token, in which
case the Python code would raise IndexError). -/
def splitWsAux : List Char → List (List Char)
  | [] => [[]]
  | c :: cs =>
    let r := splitWsAux cs
    if c.isWhitespace then [] :: r
    else
      match r with
      | [] => [[c]]
      | w :: ws => (c :: w) :: ws

/-- Python str.split() with no argument: split on whitespace runs,
dropping empty tokens. -/
def pySplitWs (s : String) : List String :=
  ((splitWsAux s.data).filter (fun w => !w.isEmpty)).map String.mk

/-- Match key extraction for the exercise recommendation. -/
def goalKey (goal : String) : Option String :=
  (pySplitWs (strLower goal)).head?

/-- Substring test on character lists (the semantics of pandas
`str.contains` for a pattern without regex metacharacters, as all goal
keys of this program are). -/
def hasSubList (pat : List Char) : List Char → Bool
  | [] => pat.isEmpty
  | c :: t => pat.isPrefixOf (c :: t) || hasSubList pat t

/-- `series.str.contains(key)` on one cell, for a literal key. -/
def strContains (s pat : String) : Bool := hasSubList pat.data s.data

/-- `ex_df[ex_df['goals'].str.lower().str.contains(key)]`: the catalog
rows whose goal tags contain the (already lower-cased) key, in catalog
order. -/
def matchedExercises (exs : List Exercise) (key : String) : List Exercise :=
  exs.filter (fun e => strContains (strLower e.goals) key)

/-- The exercise recommendation block: matching rows, or — when none
match — `ex_df.sample(min(3, len(ex_df)))`, modelled as an injected
`shuffle` of the catalog truncated to `min 3 |exs|`; finally
`recs.head(5)`. -/
def exerciseRecs (exs : List Exercise) (key : String)
    (shuffle : List Exercise → List Exercise) : List Exercise :=
  let recs := matchedExercises exs key
  let recs2 := if recs.isEmpty then (shuffle exs).take (min 3 exs.length)
               else recs
  recs2.take 5

/-- Claim C5: for each meal slot, an empty slot subset yields the explicit
("Slot", "No data") sentinel pair (the slot is still reported), and a
non-empty slot subset with no diet-preference match falls back to the full
slot subset unfiltered by diet preference — the reported row is drawn from
it. -/
theorem diet_fallback_policy :
    ∀ (foods : List Food) (diet_pref slot : String) (pick : Nat),
      slot ∈ ["breakfast", "lunch", "snack", "dinner"] →
      (slotSubset foods slot = [] →
        dietSuggestion foods diet_pref slot pick =
          (pyCapitalize slot, "No data")) ∧
      (slotSubset foods slot ≠ [] → prefMatched foods diet_pref slot = [] →
        choiceDf foods diet_pref slot = slotSubset foods slot ∧
        ∃ f ∈ slotSubset foods slot,
          dietSuggestion foods diet_pref slot pick =
            (pyCapitalize slot,
              f.food_name ++ " - " ++ toString f.cal_per_serving ++
                " kcal")) := by
  intro foods diet_pref slot pick _hslot
  constructor
  · intro hempty
    have hpm : prefMatched foods diet_pref slot = [] := by
      simp [prefMatched, hempty]
    have hc : choiceDf foods diet_pref slot = [] := by
      simp [choiceDf, hpm, hempty]
    simp [dietSuggestion, hc]
  · intro hne hpm
    have hc : choiceDf foods diet_pref slot = slotSubset foods slot := by
      simp [choiceDf, hpm]
    refine ⟨hc, ?_⟩
    have hlen : 0 < (choiceDf foods diet_pref slot).length := by
      rw [hc]
      exact List.length_pos.mpr hne
    have hi : pick % (choiceDf foods diet_pref slot).length <
        (choiceDf foods diet_pref slot).length := Nat.mod_lt _ hlen
    have hisE : (choiceDf foods diet_pref slot).isEmpty = false := by
      rw [hc]
      simpa [List.isEmpty_iff] using hne
    refine ⟨(choiceDf foods diet_pref slot).getD
      (pick % (choiceDf foods diet_pref slot).length) default, ?_, ?_⟩
    · rw [← hc, List.getD_eq_getElem _ _ hi]
      exact List.getElem_mem hi
    · simp only [dietSuggestion, hisE, Bool.false_eq_true, if_false]

/-- Witness for `diet_fallback_policy` on a one-row catalog: the empty
"lunch" slot reports the "No data" sentinel, and the "vegan" preference
with no match falls back to the full breakfast subset. -/
theorem diet_fallback_policy_witness :
    dietSuggestion [⟨"Oats porridge", "veg", 200, "breakfast"⟩]
        "vegan" "lunch" 0 = ("Lunch", "No data") ∧
    choiceDf [⟨"Oats porridge", "veg", 200, "breakfast"⟩]
        "vegan" "breakfast" =
      slotSubset [⟨"Oats porridge", "veg", 200, "breakfast"⟩] "breakfast" :=
  ⟨(diet_fallback_policy [⟨"Oats porridge", "veg", 200, "breakfast"⟩]
      "vegan" "lunch" 0 (by decide)).1 (by decide),
   ((diet_fallback_policy [⟨"Oats porridge", "veg", 200, "breakfast"⟩]
      "vegan" "breakfast" 0 (by decide)).2 (by decide) (by decide)).1⟩

/-- Claim C6: the exercise recommendation extracts the first
whitespace-delimited token of the goal, case-folded ("Lose weight" →
"lose"); a row whose goals field contains the key as a case-insensitive
substring matches (e.g. goals "Lose weight,Maintenance"); when some rows
match, the report is the first ≤5 matching rows in catalog order (a
sublist of the catalog); when none match, the fallback random sample has
size ≤ 3. -/
theorem exercise_rec_policy :
    goalKey "Lose weight" = some "lose" ∧
    (∀ e : Exercise, e.goals = "Lose weight,Maintenance" →
      strContains (strLower e.goals) "lose" = true) ∧
    (∀ (exs : List Exercise) (key : String)
        (shuffle : List Exercise → List Exercise),
      (matchedExercises exs key ≠ [] →
        exerciseRecs exs key shuffle = (matchedExercises exs key).take 5 ∧
        (exerciseRecs exs key shuffle).length ≤ 5 ∧
        (exerciseRecs exs key shuffle).Sublist exs) ∧
      (matchedExercises exs key = [] →
        (exerciseRecs exs key shuffle).length ≤ 3)) := by
  refine ⟨by decide, ?_, ?_⟩
  · intro e he
    rw [he]
    decide
  · intro exs key shuffle
    constructor
    · intro hne
      have hisE : (matchedExercises exs key).isEmpty = false := by
        simpa [List.isEmpty_iff] using hne
      have heq : exerciseRecs exs key shuffle =
          (matchedExercises exs key).take 5 := by
        simp only [exerciseRecs, hisE, Bool.false_eq_true, if_false]
      refine ⟨heq, ?_, ?_⟩
      · rw [heq, List.length_take]
        omega
      · rw [heq]
        exact (List.take_sublist 5 _).trans (List.filter_sublist exs)
    · intro hempty
      have hisE : (matchedExercises exs key).isEmpty = true := by
        simp [List.isEmpty_iff, hempty]
      simp only [exerciseRecs, hisE, if_true, List.length_take]
      omega

/-- Witness for `exercise_rec_policy` on a one-row catalog: the row with
goals "Lose weight,Maintenance" matches the key "lose" and is reported in
catalog order; an unmatched key falls back to a sample of size ≤ 3. -/
theorem exercise_rec_policy_witness :
    strContains
      (strLower (Exercise.goals ⟨"Brisk walking", "Lose weight,Maintenance",
        30, "none", "easy"⟩)) "lose" = true ∧
    exerciseRecs [⟨"Brisk walking", "Lose weight,Maintenance",
        30, "none", "easy"⟩] "lose" id =
      (matchedExercises [⟨"Brisk walking", "Lose weight,Maintenance",
        30, "none", "easy"⟩] "lose").take 5 ∧
    (exerciseRecs [⟨"Brisk walking", "Lose weight,Maintenance",
        30, "none", "easy"⟩] "posture" id).length ≤ 3 :=
  ⟨exercise_rec_policy.2.1 ⟨"Brisk walking", "Lose weight,Maintenance",
      30, "none", "easy"⟩ rfl,
   ((exercise_rec_policy.2.2 [⟨"Brisk walking", "Lose weight,Maintenance",
      30, "none", "easy"⟩] "lose" id).1 (by decide)).1,
   (exercise_rec_policy.2.2 [⟨"Brisk walking", "Lose weight,Maintenance",
      30, "none", "easy"⟩] "posture" id).2 (by decide)⟩

set_option maxRecDepth 10000

/-- UTF-8 encoding of a single character, as byte values. -/
def utf8Bytes (c : Char) : List Nat :=
  let n := c.toNat
  if n < 128 then [n]
  else if n < 2048 then
    [192 + n / 64, 128 + n % 64]
  else if n < 65536 then
    [224 + n / 4096, 128 + (n / 64) % 64, 128 + n % 64]
  else
    [240 + n / 262144, 128 + (n / 4096) % 64, 128 + (n / 64) % 64,
     128 + n % 64]

/-- The UTF-8 bytes of a string (Python `s.encode()`). -/
def strBytes (s : String) : List Nat :=
  s.data.foldr (fun c acc => utf8Bytes c ++ acc) []

/-- Right-rotation of a 32-bit word. -/
def rotr32 (n x : Nat) : Nat :=
  ((x >>> n) ||| (x <<< (32 - n))) % 4294967296

/-- The 64 SHA-256 round constants. -/
def sha256K : List Nat :=
  [1116352408, 1899447441, 3049323471, 3921009573,
   961987163, 1508970993, 2453635748, 2870763221,
   3624381080, 310598401, 607225278, 1426881987,
   1925078388, 2162078206, 2614888103, 3248222580,
   3835390401, 4022224774, 264347078, 604807628,
   770255983, 1249150122, 1555081692, 1996064986,
   2554220882, 2821834349, 2952996808, 3210313671,
   3336571891, 3584528711, 113926993, 338241895,
   666307205, 773529912, 1294757372, 1396182291,
   1695183700, 1986661051, 2177026350, 2456956037,
   2730485921, 2820302411, 3259730800, 3345764771,
   3516065817, 3600352804, 4094571909, 275423344,
   430227734, 506948616, 659060556, 883997877,
   958139571, 1322822218, 1537002063, 1747873779,
   1955562222, 2024104815, 2227730452, 2361852424,
   2428436474, 2756734187, 3204031479, 3329325298]

/-- The SHA-256 initial hash value. -/
def sha256H0 : List Nat :=
  [1779033703, 3144134277, 1013904242, 2773480762,
   1359893119, 2600822924, 528734635, 1541459225]

/-- SHA-256 message padding: append 0x80, zeros, and the 64-bit big-endian
bit length, reaching a multiple of 64 bytes. -/
def sha256Pad (msg : List Nat) : List Nat :=
  let z := (119 - msg.length % 64) % 64
  msg ++ 128 :: List.replicate z 0 ++
    ([56, 48, 40, 32, 24, 16, 8, 0].map
      (fun i => ((8 * msg.length) >>> i) % 256))

/-- Split a list into chunks of n elements (fuel-based structural
recursion so that the definition reduces; the fuel `l.length` always
suffices). -/
def chunkAux (fuel n : Nat) (l : List α) : List (List α) :=
  match fuel with
  | 0 => []
  | fuel' + 1 =>
    if l.isEmpty ∨ n = 0 then [] else l.take n :: chunkAux fuel' n (l.drop n)

/-- Split a list into chunks of n elements. -/
def chunkList (n : Nat) (l : List α) : List (List α) := chunkAux l.length n l

/-- Big-endian 32-bit words from a 64-byte block. -/
def blockWords (block : List Nat) : List Nat :=
  (chunkList 4 block).map
    (fun c => c.getD 0 0 * 16777216 + c.getD 1 0 * 65536 +
      c.getD 2 0 * 256 + c.getD 3 0)

/-- SHA-256 message-schedule extension from 16 to 64 words. -/
def extendWords (w16 : List Nat) : List Nat :=
  (List.range 48).foldl
    (fun w _ =>
      let s0 := rotr32 7 (w.getD (w.length - 15) 0) ^^^
        rotr32 18 (w.getD (w.length - 15) 0) ^^^
        ((w.getD (w.length - 15) 0) >>> 3)
      let s1 := rotr32 17 (w.getD (w.length - 2) 0) ^^^
        rotr32 19 (w.getD (w.length - 2) 0) ^^^
        ((w.getD (w.length - 2) 0) >>> 10)
      w ++ [(w.getD (w.length - 16) 0 + s0 + w.getD (w.length - 7) 0 + s1)
        % 4294967296])
    w16

/-- One SHA-256 compression round: state [a..h] with round constant k and
schedule word w. -/
def sha256Round (st : List Nat) (kw : Nat × Nat) : List Nat :=
  let a := st.getD 0 0
  let b := st.getD 1 0
  let c := st.getD 2 0
  let d := st.getD 3 0
  let e := st.getD 4 0
  let f := st.getD 5 0
  let g := st.getD 6 0
  let h := st.getD 7 0
  let s1 := rotr32 6 e ^^^ rotr32 11 e ^^^ rotr32 25 e
  let ch := (e &&& f) ^^^ ((4294967295 ^^^ e) &&& g)
  let t1 := (h + s1 + ch + kw.1 + kw.2) % 4294967296
  let s0 := rotr32 2 a ^^^ rotr32 13 a ^^^ rotr32 22 a
  let mj := (a &&& b) ^^^ (a &&& c) ^^^ (b &&& c)
  let t2 := (s0 + mj) % 4294967296
  [(t1 + t2) % 4294967296, a, b, c, (d + t1) % 4294967296, e, f, g]

/-- SHA-256 compression of one 64-byte block into the running hash. -/
def sha256Compress (hs : List Nat) (block : List Nat) : List Nat :=
  let w := extendWords (blockWords block)
  let st := (sha256K.zip w).foldl sha256Round hs
  (hs.zip st).map (fun p => (p.1 + p.2) % 4294967296)

/-- The SHA-256 digest of a byte sequence, as eight 32-bit words. -/
def sha256Words (msg : List Nat) : List Nat :=
  (chunkList 64 (sha256Pad msg)).foldl sha256Compress sha256H0

/-- Lowercase hex digit characters. -/
def hexChar (n : Nat) : Char := "0123456789abcdef".data.getD n '0'

/-- Eight lowercase hex digits of a 32-bit word, most significant first. -/
def wordHex (w : Nat) : List Char :=
  [28, 24, 20, 16, 12, 8, 4, 0].map (fun i => hexChar ((w >>> i) % 16))

/-- hash_password from app.py:
`hashlib.sha256(password.encode()).hexdigest()`. -/
def hash_password (password : String) : String :=
  String.mk (((sha256Words (strBytes password)).map wordHex).flatten)

/-- A row of the sqlite `users` table: id (AUTOINCREMENT primary key),
username (UNIQUE), password_hash, full_name. -/
structure UserRec where
  id : ℤ
  username : String
  password_hash : String
  full_name : String
deriving DecidableEq, Inhabited

/-- The rowid sqlite assigns to a newly inserted user row (one more than
the largest existing id). -/
def nextId (db : List UserRec) : ℤ :=
  (db.map (fun r => r.id)).foldl max 0 + 1

/-- register_user from app.py: a plain INSERT relying on the UNIQUE
constraint on username; the resulting sqlite3.IntegrityError when a row
with the same username already exists is caught and translated into
`(False, "Username already exists.")`, and a successful insert returns
`(True, None)`. -/
def register_user (db : List UserRec)
    (username password full_name : String) :
    List UserRec × (Bool × Option String) :=
  if db.any (fun r => r.username == username) then
    (db, (false, some "Username already exists."))
  else
    (db ++ [⟨nextId db, username, hash_password password, full_name⟩],
     (true, none))

/-- authenticate from app.py: SELECT id, password_hash WHERE username = ?;
returns (True, id) when a row exists and the digest of the supplied
password equals the stored digest, and (False, None) otherwise. -/
def authenticate (db : List UserRec) (username password : String) :
    Bool × Option ℤ :=
  match db.find? (fun r => r.username == username) with
  | none => (false, none)
  | some r =>
    if hash_password password == r.password_hash then (true, some r.id)
    else (false, none)

/-- The seven profile fields saved and fetched by app.py. -/
structure ProfileRow where
  age : ℤ
  sex : String
  height_cm : ℚ
  weight_kg : ℚ
  activity_level : String
  goal : String
  diet_pref : String
deriving DecidableEq, Inhabited

/-- save_profile from app.py: INSERT OR REPLACE keyed by the `user_id`
primary key (a full-row upsert); the stored row also carries
`created_at = datetime.now().isoformat()`, passed here explicitly. -/
def save_profile (db : List (ℤ × ProfileRow × String)) (user_id : ℤ)
    (profile : ProfileRow) (created_at : String) :
    List (ℤ × ProfileRow × String) :=
  (user_id, profile, created_at) :: db.filter (fun e => !(e.1 == user_id))

/-- get_profile from app.py: SELECT the seven profile fields
WHERE user_id = ?, returning None when no row exists. -/
def get_profile (db : List (ℤ × ProfileRow × String)) (user_id : ℤ) :
    Option ProfileRow :=
  (db.find? (fun e => e.1 == user_id)).map (fun e => e.2.1)

/-- The profiles table produced by a sequence of save_profile calls
starting from the empty table. -/
def applySaves (ops : List (ℤ × ProfileRow × String)) :
    List (ℤ × ProfileRow × String) :=
  ops.foldl (fun db op => save_profile db op.1 op.2.1 op.2.2) []

/-- find? is unchanged by filtering with a predicate that every find?
match satisfies. -/
theorem find?_filter_of_imp {α : Type} (p q : α → Bool) (l : List α)
    (h : ∀ a, p a = true → q a = true) :
    (l.filter q).find? p = l.find? p := by
  induction l with
  | nil => rfl
  | cons a t ih =>
    by_cases hq : q a = true
    · rw [List.filter_cons_of_pos hq]
      cases hpa : p a
      · rw [List.find?_cons_of_neg _ (by simp [hpa]),
            List.find?_cons_of_neg _ (by simp [hpa])]
        exact ih
      · rw [List.find?_cons_of_pos _ hpa, List.find?_cons_of_pos _ hpa]
    · have hp : p a = false := by
        cases hpa : p a
        · rfl
        · exact absurd (h a hpa) hq
      rw [List.filter_cons_of_neg (by simp [hq]),
          List.find?_cons_of_neg _ (by simp [hp])]
      exact ih

/-- Saving a profile for a different user does not change what
get_profile returns for this user. -/
theorem get_profile_save_other (db : List (ℤ × ProfileRow × String))
    (v user_id : ℤ) (p : ProfileRow) (t : String) (h : v ≠ user_id) :
    get_profile (save_profile db v p t) user_id = get_profile db user_id := by
  unfold get_profile save_profile
  rw [List.find?_cons_of_neg _ (by simp [h]),
      find?_filter_of_imp]
  intro e he
  have : e.1 = user_id := by simpa using he
  simp [this, Ne.symm h]

/-- Claim C7: saving a profile and fetching it for the same userId returns
the seven fields exactly as saved (save_profile is a full-overwrite
upsert), and fetching the profile of a userId that no save ever targeted
returns the Absent sentinel (None), not an error. -/
theorem profile_roundtrip_absent :
    (∀ (db : List (ℤ × ProfileRow × String)) (user_id : ℤ)
        (p : ProfileRow) (created_at : String),
      get_profile (save_profile db user_id p created_at) user_id = some p) ∧
    (∀ (ops : List (ℤ × ProfileRow × String)) (user_id : ℤ),
      user_id ∉ ops.map (fun op => op.1) →
      get_profile (applySaves ops) user_id = none) := by
  constructor
  · intro db user_id p created_at
    unfold get_profile save_profile
    rw [List.find?_cons_of_pos _ (by simp)]
    rfl
  · intro ops user_id hmem
    have haux : ∀ (l : List (ℤ × ProfileRow × String))
        (db : List (ℤ × ProfileRow × String)),
        user_id ∉ l.map (fun op => op.1) →
        get_profile
          (l.foldl (fun db op => save_profile db op.1 op.2.1 op.2.2) db)
          user_id = get_profile db user_id := by
      intro l
      induction l with
      | nil => intro db _; rfl
      | cons a t ih =>
        intro db hm
        simp only [List.map_cons, List.mem_cons, not_or] at hm
        rw [List.foldl_cons, ih _ hm.2,
          get_profile_save_other _ _ _ _ _ (Ne.symm hm.1)]
    exact haux ops [] hmem

/-- Witness for `profile_roundtrip_absent`: a concrete profile round-trips
through save/fetch, and fetching userId 2 after only userId 1 was ever
saved yields None. -/
theorem profile_roundtrip_absent_witness :
    get_profile
      (save_profile [] 1 ⟨30, "Male", 175, 70,
        "Sedentary (little/no exercise)", "Lose weight", "veg"⟩ "t0") 1 =
      some ⟨30, "Male", 175, 70,
        "Sedentary (little/no exercise)", "Lose weight", "veg"⟩ ∧
    get_profile
      (applySaves [(1, ⟨30, "Male", 175, 70,
        "Sedentary (little/no exercise)", "Lose weight", "veg"⟩, "t0")])
      2 = none :=
  ⟨profile_roundtrip_absent.1 [] 1 ⟨30, "Male", 175, 70,
      "Sedentary (little/no exercise)", "Lose weight", "veg"⟩ "t0",
   profile_roundtrip_absent.2 [(1, ⟨30, "Male", 175, 70,
      "Sedentary (little/no exercise)", "Lose weight", "veg"⟩, "t0")] 2
      (by decide)⟩

/-- Claim C9: authenticate fails with the very same result value
(False, None) both when the username is absent from the users table and
when a row exists but the password digest does not match. -/
theorem authenticate_uniform_failure :
    ∀ (db : List UserRec) (username password : String),
      (db.find? (fun r => r.username == username) = none →
        authenticate db username password = (false, none)) ∧
      (∀ u : UserRec, db.find? (fun r => r.username == username) = some u →
        hash_password password ≠ u.password_hash →
        authenticate db username password = (false, none)) := by
  intro db username password
  constructor
  · intro hnone
    unfold authenticate
    rw [hnone]
  · intro u hfound hne
    unfold authenticate
    rw [hfound]
    simp [beq_eq_false_iff_ne.mpr hne]

/-- Witness for `authenticate_uniform_failure`: against a table holding
user "bob" with the digest of "secret", the unknown username "alice" and
the wrong password "wrong" for "bob" both produce exactly (False, None). -/
theorem authenticate_uniform_failure_witness :
    authenticate [⟨1, "bob", hash_password "secret", ""⟩] "alice" "pw" =
      (false, none) ∧
    authenticate [⟨1, "bob", hash_password "secret", ""⟩] "bob" "wrong" =
      (false, none) :=
  ⟨(authenticate_uniform_failure [⟨1, "bob", hash_password "secret", ""⟩]
      "alice" "pw").1 rfl,
   (authenticate_uniform_failure [⟨1, "bob", hash_password "secret", ""⟩]
      "bob" "wrong").2 ⟨1, "bob", hash_password "secret", ""⟩ rfl
      (by decide)⟩

/-- find? skips a whole prefix in which it finds nothing. -/
theorem find?_append_none {α : Type} (p : α → Bool) (l₁ l₂ : List α)
    (h : l₁.find? p = none) : (l₁ ++ l₂).find? p = l₂.find? p := by
  induction l₁ with
  | nil => rfl
  | cons a t ih =>
    cases hpa : p a
    · rw [List.find?_cons_of_neg _ (by simp [hpa])] at h
      rw [List.cons_append, List.find?_cons_of_neg _ (by simp [hpa])]
      exact ih h
    · rw [List.find?_cons_of_pos _ hpa] at h
      exact absurd h (by simp)

/-- Claim C10: when the username is not yet present, register_user
succeeds and a subsequent authenticate with the same plaintext password
succeeds, returning the id the registration assigned — the stored digest
is a deterministic, unsalted function of the password, so hashing the
password again reproduces it. -/
theorem register_then_authenticate :
    ∀ (db : List UserRec) (username password full_name : String),
      db.any (fun r => r.username == username) = false →
      (register_user db username password full_name).2 = (true, none) ∧
      authenticate (register_user db username password full_name).1
        username password = (true, some (nextId db)) := by
  intro db username password full_name h
  have hreg : register_user db username password full_name =
      (db ++ [⟨nextId db, username, hash_password password, full_name⟩],
       (true, none)) := by
    simp only [register_user]
    rw [h]
    rfl
  refine ⟨by rw [hreg], ?_⟩
  rw [hreg]
  unfold authenticate
  have hnone : db.find? (fun r => r.username == username) = none := by
    rw [List.find?_eq_none]
    intro x hx
    have hx2 := List.any_eq_false.mp h x hx
    simpa using hx2
  rw [find?_append_none _ _ _ hnone,
    List.find?_cons_of_pos _ (by simp)]
  simp

/-- Witness for `register_then_authenticate`: registering "alice" with
password "pw" in an empty table and logging in with the same password
yields (True, the assigned id). -/
theorem register_then_authenticate_witness :
    (register_user [] "alice" "pw" "Alice").2 = (true, none) ∧
    authenticate (register_user [] "alice" "pw" "Alice").1 "alice" "pw" =
      (true, some (nextId [])) :=
  ⟨(register_then_authenticate [] "alice" "pw" "Alice" rfl).1,
   (register_then_authenticate [] "alice" "pw" "Alice" rfl).2⟩

/-- Supporting theorem for the AccountStore error policy (claim C8's
provable half): whenever a first register_user call for a username
succeeds, a second call with the same username is rejected with the typed
(False, "Username already exists.") result — the uniqueness conflict is
translated, not propagated. -/
theorem register_duplicate_translated :
    ∀ (db : List UserRec) (username p1 n1 p2 n2 : String),
      (register_user db username p1 n1).2.1 = true →
      (register_user (register_user db username p1 n1).1 username p2 n2).2 =
        (false, some "Username already exists.") := by
  intro db username p1 n1 p2 n2 hfirst
  by_cases h : db.any (fun r => r.username == username) = true
  · exfalso
    have : (register_user db username p1 n1).2.1 = false := by
      simp only [register_user]
      rw [h]
      rfl
    rw [this] at hfirst
    exact absurd hfirst (by simp)
  · have h2 : db.any (fun r => r.username == username) = false := by
      cases hb : db.any (fun r => r.username == username)
      · rfl
      · exact absurd hb h
    have hreg : (register_user db username p1 n1).1 =
        db ++ [⟨nextId db, username, hash_password p1, n1⟩] := by
      simp only [register_user]
      rw [h2]
      rfl
    rw [hreg]
    have hany : (db ++ [(⟨nextId db, username, hash_password p1,
        n1⟩ : UserRec)]).any (fun r => r.username == username) = true := by
      rw [List.any_append]
      simp
    simp only [register_user]
    rw [hany]
    rfl
